import Mathlib

/-!
Shallow embedding of the Gnocchi ceilometer dispatcher
(`src/gnocchi/ceilometer/dispatcher.py`).

Samples are grouped with the semantics of Python's `itertools.groupby`
(consecutive runs of equal keys).  HTTP traffic is modelled by an oracle
`Nat → Nat` giving the status code of the n-th HTTP call made during one
dispatch, and every remote operation records a structured `Call` event.
Python exceptions become an `Option Exc` result threaded explicitly:
`some e` means the exception `e` is propagating.
-/

namespace Gnocchi

/-- A ceilometer sample, with the fields the dispatcher reads. -/
structure Sample where
  resource_id : String
  counter_name : String
  timestamp : Nat
  counter_volume : Int
  user_id : String
  project_id : String
  deriving DecidableEq, Repr

instance : Inhabited Sample := ⟨⟨"", "", 0, 0, "", ""⟩⟩

/-- JSON-ish attribute values appearing in resource attribute dictionaries. -/
inductive Attr where
  | s : String → Attr
  | dict : List (String × Attr) → Attr
  deriving Repr

/-- A resource-type plugin from the stevedore extension manager:
its name (the resource type), the entity names it owns
(`get_entities_names`), and its extra-attribute extractor
(`get_resource_extra_attributes`). -/
structure Extension where
  name : String
  entities_names : List String
  get_resource_extra_attributes : Sample → List (String × Attr)

/-- Dispatcher configuration and plugin registry. -/
structure Dispatcher where
  gnocchi_url : String
  archive_policy : String
  mgmr : List Extension

/-- The `{'archive_policy': <policy>}` dictionary attached to every entity. -/
def gnocchi_archive_policy (disp : Dispatcher) : Attr :=
  .dict [("archive_policy", .s disp.archive_policy)]

/-- One HTTP call made against the store, with its structured payload. -/
inductive Call where
  | postMeasure (resource_type resource_id entity_name : String)
      (measures : List (Nat × Int))
  | createResource (resource_type resource_id : String)
      (attributes : List (String × Attr))
  | updateResource (resource_type resource_id : String)
      (attributes : List (String × Attr))
  | createEntity (resource_type resource_id entity_name : String)
  deriving Repr

/-- The workflow exceptions of the dispatcher module. -/
inductive Exc where
  | noSuchEntity
  | entityAlreadyExists
  | resourceAlreadyExists
  | unexpectedWorkflowError
  deriving DecidableEq, Repr

/-- Status check `int(status / 100) == 2` of the Python module. -/
def is2xx (status : Nat) : Bool := status / 100 == 2

/-- Python dict assignment `m[k] = v` on an insertion-ordered dictionary:
an existing key keeps its position and gets the new value, a new key is
appended. -/
def setKey : List (String × Attr) → String → Attr → List (String × Attr)
  | [], k, v => [(k, v)]
  | (k', v') :: rest, k, v =>
    if k' = k then (k, v) :: rest else (k', v') :: setKey rest k v

/-- Python dict lookup `m[k]` (as an option). -/
def getKey : List (String × Attr) → String → Option Attr
  | [], _ => none
  | (k', v) :: rest, k => if k' = k then some v else getKey rest k

/-- Model of `_post_measure`: POST the measures; 404 raises `NoSuchEntity`,
any other non-2xx raises `UnexpectedWorkflowError`. -/
def post_measure (oracle : Nat → Nat) (resource_type resource_id entity_name : String)
    (measure_attributes : List (Nat × Int)) (n : Nat) : Option Exc × List Call :=
  let status := oracle n
  ((if status == 404 then some .noSuchEntity
    else if !is2xx status then some .unexpectedWorkflowError
    else none),
   [.postMeasure resource_type resource_id entity_name measure_attributes])

/-- Model of `_create_resource`: 409 raises `ResourceAlreadyExists`, other non-2xx
raises `UnexpectedWorkflowError`. -/
def create_resource (oracle : Nat → Nat) (resource_type resource_id : String)
    (resource_attributes : List (String × Attr)) (n : Nat) : Option Exc × List Call :=
  let status := oracle n
  ((if status == 409 then some .resourceAlreadyExists
    else if !is2xx status then some .unexpectedWorkflowError
    else none),
   [.createResource resource_type resource_id resource_attributes])

/-- Model of `_update_resource`: non-2xx raises `UnexpectedWorkflowError`. -/
def update_resource (oracle : Nat → Nat) (resource_type resource_id : String)
    (resource_attributes : List (String × Attr)) (n : Nat) : Option Exc × List Call :=
  let status := oracle n
  ((if !is2xx status then some .unexpectedWorkflowError else none),
   [.updateResource resource_type resource_id resource_attributes])

/-- Model of `_create_entity`: 409 raises `EntityAlreadyExists`, other non-2xx
raises `UnexpectedWorkflowError`. -/
def create_entity (oracle : Nat → Nat) (resource_type resource_id entity_name : String)
    (n : Nat) : Option Exc × List Call :=
  let status := oracle n
  ((if status == 409 then some .entityAlreadyExists
    else if !is2xx status then some .unexpectedWorkflowError
    else none),
   [.createEntity resource_type resource_id entity_name])

/-- Model of `_get_resource_attributes`: extra attributes extracted from the last
sample of the group; when not `for_update`, the identity fields `id`,
`user_id`, `project_id` and the `entities` policy-binding dictionary are
assigned on top of them. -/
def get_resource_attributes (disp : Dispatcher) (ext : Extension)
    (resource_id _entity_name : String) (samples : List Sample)
    (for_update : Bool) : List (String × Attr) :=
  let last := samples.getLastD default
  let attributes := ext.get_resource_extra_attributes last
  if !for_update then
    let a1 := setKey attributes "id" (.s resource_id)
    let a2 := setKey a1 "user_id" (.s last.user_id)
    let a3 := setKey a2 "project_id" (.s last.project_id)
    setKey a3 "entities"
      (.dict (ext.entities_names.foldl
        (fun m en => setKey m en (gnocchi_archive_policy disp)) []))
  else attributes

/-- Model of `_process_samples` without its decorator: the create/post/retry
protocol for one (resource_type, resource_id, entity_name) work unit.
Returns the propagating exception (if any) and the HTTP calls issued,
in order; `n` is the index of the next HTTP call. -/
def process_samples (oracle : Nat → Nat) (disp : Dispatcher) (ext : Extension)
    (resource_id entity_name : String) (samples : List Sample)
    (resource_need_to_be_updated : Bool) (n : Nat) : Option Exc × List Call :=
  let resource_type := ext.name
  let measure_attributes := samples.map fun s => (s.timestamp, s.counter_volume)
  match post_measure oracle resource_type resource_id entity_name
      measure_attributes n with
  | (none, c1) =>
    if resource_need_to_be_updated then
      match update_resource oracle resource_type resource_id
          (get_resource_attributes disp ext resource_id entity_name samples true)
          (n + 1) with
      | (r, c) => (r, c1 ++ c)
    else (none, c1)
  | (some Exc.noSuchEntity, c1) =>
    match create_resource oracle resource_type resource_id
        (get_resource_attributes disp ext resource_id entity_name samples false)
        (n + 1) with
    | (none, c2) =>
      match post_measure oracle resource_type resource_id entity_name
          measure_attributes (n + 2) with
      | (none, c3) => (none, c1 ++ c2 ++ c3)
      | (some e, c3) => (some e, c1 ++ c2 ++ c3)
    | (some Exc.resourceAlreadyExists, c2) =>
      match create_entity oracle resource_type resource_id entity_name (n + 2) with
      | (none, c3) | (some Exc.entityAlreadyExists, c3) =>
        match post_measure oracle resource_type resource_id entity_name
            measure_attributes (n + 3) with
        | (none, c4) =>
          if resource_need_to_be_updated then
            match update_resource oracle resource_type resource_id
                (get_resource_attributes disp ext resource_id entity_name
                  samples true) (n + 4) with
            | (r, c5) => (r, c1 ++ c2 ++ c3 ++ c4 ++ c5)
          else (none, c1 ++ c2 ++ c3 ++ c4)
        | (some e, c4) => (some e, c1 ++ c2 ++ c3 ++ c4)
      | (some e, c3) => (some e, c1 ++ c2 ++ c3)
    | (some e, c2) => (some e, c1 ++ c2)
  | (some e, c1) => (some e, c1)

/-- The `log_and_ignore_unexpected_workflow_error` decorator:
it swallows (logs) `UnexpectedWorkflowError` only; every other exception
keeps propagating. -/
def process_samples_logged (oracle : Nat → Nat) (disp : Dispatcher) (ext : Extension)
    (resource_id entity_name : String) (samples : List Sample)
    (resource_need_to_be_updated : Bool) (n : Nat) : Option Exc × List Call :=
  match process_samples oracle disp ext resource_id entity_name samples
      resource_need_to_be_updated n with
  | (some Exc.unexpectedWorkflowError, calls) => (none, calls)
  | r => r

/-- Semantics of `itertools.groupby`: partition a list, in order, into maximal runs of
consecutive elements with equal keys. -/
def groupby {α : Type} (key : α → String) : List α → List (String × List α)
  | [] => []
  | x :: xs =>
    match groupby key xs with
    | [] => [(key x, [x])]
    | (k, g) :: rest =>
      if key x = k then (k, x :: g) :: rest
      else (key x, [x]) :: (k, g) :: rest

/-- The inner plugin loop of `record_metering_data`: try every registered
extension in order, running the work unit for each one whose owned entity
names contain `entity_name`; an escaping exception aborts everything. -/
def runExts (oracle : Nat → Nat) (disp : Dispatcher)
    (resource_id entity_name : String) (samples : List Sample)
    (resource_need_to_be_updated : Bool) :
    List Extension → Nat → Option Exc × List Call
  | [], _ => (none, [])
  | ext :: rest, n =>
    if entity_name ∈ ext.entities_names then
      match process_samples_logged oracle disp ext resource_id entity_name
          samples resource_need_to_be_updated n with
      | (none, calls) =>
        match runExts oracle disp resource_id entity_name samples
            resource_need_to_be_updated rest (n + calls.length) with
        | (r, calls') => (r, calls ++ calls')
      | (some e, calls) => (some e, calls)
    else
      runExts oracle disp resource_id entity_name samples
        resource_need_to_be_updated rest n

/-- The metric-name group loop of `record_metering_data` for one resource;
the per-resource `resource_need_to_be_updated` flag is `True` for every
group (the assignment turning it off is commented out in the source). -/
def runEntityGroups (oracle : Nat → Nat) (disp : Dispatcher) (resource_id : String) :
    List (String × List Sample) → Nat → Option Exc × List Call
  | [], _ => (none, [])
  | (entity_name, samples) :: rest, n =>
    match runExts oracle disp resource_id entity_name samples true disp.mgmr n with
    | (none, calls) =>
      match runEntityGroups oracle disp resource_id rest (n + calls.length) with
      | (r, calls') => (r, calls ++ calls')
    | (some e, calls) => (some e, calls)

/-- The resource-id group loop of `record_metering_data`. -/
def runResourceGroups (oracle : Nat → Nat) (disp : Dispatcher) :
    List (String × List Sample) → Nat → Option Exc × List Call
  | [], _ => (none, [])
  | (resource_id, samples) :: rest, n =>
    match runEntityGroups oracle disp resource_id
        (groupby (fun s => s.counter_name) samples) n with
    | (none, calls) =>
      match runResourceGroups oracle disp rest (n + calls.length) with
      | (r, calls') => (r, calls ++ calls')
    | (some e, calls) => (some e, calls)

/-- Model of `record_metering_data`: group the batch by `resource_id` (consecutive
runs), then by `counter_name`, and run the protocol for every matching
plugin; returns the escaping exception (if any) and all HTTP calls issued. -/
def record_metering_data (oracle : Nat → Nat) (disp : Dispatcher)
    (data : List Sample) (n : Nat) : Option Exc × List Call :=
  runResourceGroups oracle disp (groupby (fun s => s.resource_id) data) n

/-- Append a key to the list of seen keys if it is new. -/
def insertKey (k : String) (ks : List String) : List String :=
  if k ∈ ks then ks else ks ++ [k]

/-- Keys of a list in first-seen order. -/
def firstSeenKeys {α : Type} (key : α → String) (l : List α) : List String :=
  l.foldl (fun ks x => insertKey (key x) ks) []

/-- Modelled from the spec: the grouping contract of §4.1 taken literally —
groups keyed by first-seen key order, each group gathering ALL elements of
that key in their original relative order (even non-adjacent ones).  This
definition exists only to be compared with the source's `groupby`. -/
def groupFirstSeen {α : Type} (key : α → String) (l : List α) : List (String × List α) :=
  (firstSeenKeys key l).map (fun k => (k, l.filter (fun x => key x == k)))

/-- The sample groups produced by the grouping step of
`record_metering_data`, in resource-group order then metric-group order. -/
def groupedSamples (data : List Sample) : List (List Sample) :=
  (groupby (fun s => s.resource_id) data).flatMap
    (fun p => (groupby (fun s => s.counter_name) p.2).map Prod.snd)

/-- Recognise a measurement-post call. -/
def isMeasurePost : Call → Bool
  | .postMeasure _ _ _ _ => true
  | _ => false

/-- Recognise a create-resource call. -/
def isCreateResourceCall : Call → Bool
  | .createResource _ _ _ => true
  | _ => false

/-- Recognise an update-resource call. -/
def isUpdateResourceCall : Call → Bool
  | .updateResource _ _ _ => true
  | _ => false

/-- Recognise a create-entity call. -/
def isCreateEntityCall : Call → Bool
  | .createEntity _ _ _ => true
  | _ => false

/-- The measurement payload of a call, when it is a measurement post. -/
def measureBody : Call → Option (List (Nat × Int))
  | .postMeasure _ _ _ b => some b
  | _ => none

/-- A plugin owning the single entity name "cpu" with no extra attributes. -/
def extCpu : Extension := ⟨"instance", ["cpu"], fun _ => []⟩

/-- A dispatcher with the default configuration and the `extCpu` plugin. -/
def dispCpu : Dispatcher := ⟨"http://localhost:8041", "low", [extCpu]⟩

/-- Concrete samples used in counterexamples and witnesses. -/
def sampleR1 : Sample := ⟨"r1", "cpu", 1, 5, "u1", "p1"⟩

def sampleR2 : Sample := ⟨"r2", "cpu", 2, 7, "u2", "p2"⟩

def sampleR1b : Sample := ⟨"r1", "cpu", 3, 9, "u1", "p1"⟩

/-- A store where every call answers 200. -/
def oracleAll200 : Nat → Nat := fun _ => 200

/-- A store answering 404 (post), 200 (create-resource), then 404 again
(retry post). -/
def oracle404Retry404 : Nat → Nat :=
  fun n => if n == 0 then 404 else if n == 1 then 200 else 404

/-- A store answering 404 (post), 409 (create-resource), then 200. -/
def oracleColdEntity : Nat → Nat :=
  fun n => if n == 0 then 404 else if n == 1 then 409 else 200

/-- A store answering 404 (post), 409 (create-resource), 409 (create-entity),
then 200. -/
def oracleEntityRace : Nat → Nat :=
  fun n => if n == 0 then 404 else if n == 1 then 409 else if n == 2 then 409 else 200

/-- A store answering 404 (post) and then 200 for everything. -/
def oracleColdResource : Nat → Nat :=
  fun n => if n == 0 then 404 else 200

theorem groupby_cons_nil {α : Type} (key : α → String) (x : α) (xs : List α)
    (h : groupby key xs = []) : groupby key (x :: xs) = [(key x, [x])] := by
  simp only [groupby, h]

theorem groupby_cons_run {α : Type} (key : α → String) (x : α) (xs : List α)
    {k : String} {g : List α} {rest : List (String × List α)}
    (h : groupby key xs = (k, g) :: rest) (hk : key x = k) :
    groupby key (x :: xs) = (k, x :: g) :: rest := by
  simp only [groupby, h]
  simp [hk]

theorem groupby_cons_new {α : Type} (key : α → String) (x : α) (xs : List α)
    {k : String} {g : List α} {rest : List (String × List α)}
    (h : groupby key xs = (k, g) :: rest) (hk : ¬ key x = k) :
    groupby key (x :: xs) = (key x, [x]) :: (k, g) :: rest := by
  simp only [groupby, h]
  simp [hk]

theorem groupby_flatten {α : Type} (key : α → String) (l : List α) :
    ((groupby key l).map Prod.snd).flatten = l := by
  induction l with
  | nil => rfl
  | cons x xs ih =>
    cases h : groupby key xs with
    | nil =>
      rw [h] at ih
      simp only [List.map_nil, List.flatten_nil] at ih
      rw [groupby_cons_nil key x xs h]
      simp [← ih]
    | cons p rest =>
      obtain ⟨k, g⟩ := p
      rw [h] at ih
      simp only [List.map_cons, List.flatten_cons] at ih
      by_cases hk : key x = k
      · rw [groupby_cons_run key x xs h hk]
        simp only [List.map_cons, List.flatten_cons, List.cons_append]
        rw [ih]
      · rw [groupby_cons_new key x xs h hk]
        simp only [List.map_cons, List.flatten_cons, List.singleton_append]
        rw [ih]

theorem groupby_groups {α : Type} (key : α → String) (l : List α) :
    ∀ p ∈ groupby key l, p.2 ≠ [] ∧ ∀ x ∈ p.2, key x = p.1 := by
  induction l with
  | nil => intro p hp; simp [groupby] at hp
  | cons x xs ih =>
    intro p hp
    cases h : groupby key xs with
    | nil =>
      rw [groupby_cons_nil key x xs h] at hp
      simp only [List.mem_singleton] at hp
      subst hp
      refine ⟨by simp, ?_⟩
      intro y hy
      simp only [List.mem_singleton] at hy
      subst hy
      rfl
    | cons q rest =>
      obtain ⟨k, g⟩ := q
      by_cases hk : key x = k
      · rw [groupby_cons_run key x xs h hk] at hp
        rcases List.mem_cons.mp hp with hp | hp
        · subst hp
          have hg := ih (k, g) (h ▸ List.mem_cons_self _ _)
          refine ⟨by simp, ?_⟩
          intro y hy
          rcases List.mem_cons.mp hy with hy | hy
          · subst hy; exact hk
          · exact hg.2 y hy
        · exact ih p (h ▸ List.mem_cons_of_mem _ hp)
      · rw [groupby_cons_new key x xs h hk] at hp
        rcases List.mem_cons.mp hp with hp | hp
        · subst hp
          refine ⟨by simp, ?_⟩
          intro y hy
          simp only [List.mem_singleton] at hy
          subst hy
          rfl
        · exact ih p (h ▸ hp)

theorem groupby_chain {α : Type} (key : α → String) (l : List α) :
    List.Chain' (fun p q : String × List α => p.1 ≠ q.1) (groupby key l) := by
  induction l with
  | nil => simp [groupby]
  | cons x xs ih =>
    cases h : groupby key xs with
    | nil => rw [groupby_cons_nil key x xs h]; simp
    | cons q rest =>
      obtain ⟨k, g⟩ := q
      rw [h] at ih
      by_cases hk : key x = k
      · rw [groupby_cons_run key x xs h hk]
        cases rest with
        | nil => simp
        | cons r rs =>
          rw [List.chain'_cons] at ih ⊢
          exact ih
      · rw [groupby_cons_new key x xs h hk]
        rw [List.chain'_cons]
        exact ⟨hk, ih⟩

theorem ne_404_of_is2xx (s : Nat) (h : is2xx s = true) : s ≠ 404 := by
  intro hh; subst hh; simp [is2xx] at h

theorem ne_409_of_is2xx (s : Nat) (h : is2xx s = true) : s ≠ 409 := by
  intro hh; subst hh; simp [is2xx] at h

theorem post_measure_404 (oracle : Nat → Nat) (rt rid en : String)
    (m : List (Nat × Int)) (n : Nat) (h : oracle n = 404) :
    post_measure oracle rt rid en m n =
      (some Exc.noSuchEntity, [Call.postMeasure rt rid en m]) := by
  simp [post_measure, h]

theorem post_measure_ok (oracle : Nat → Nat) (rt rid en : String)
    (m : List (Nat × Int)) (n : Nat) (h : is2xx (oracle n) = true) :
    post_measure oracle rt rid en m n = (none, [Call.postMeasure rt rid en m]) := by
  simp [post_measure, ne_404_of_is2xx _ h, h]

theorem post_measure_fatal (oracle : Nat → Nat) (rt rid en : String)
    (m : List (Nat × Int)) (n : Nat) (h404 : oracle n ≠ 404)
    (h : is2xx (oracle n) = false) :
    post_measure oracle rt rid en m n =
      (some Exc.unexpectedWorkflowError, [Call.postMeasure rt rid en m]) := by
  simp [post_measure, h404, h]

theorem create_resource_ok (oracle : Nat → Nat) (rt rid : String)
    (attrs : List (String × Attr)) (n : Nat) (h : is2xx (oracle n) = true) :
    create_resource oracle rt rid attrs n =
      (none, [Call.createResource rt rid attrs]) := by
  simp [create_resource, ne_409_of_is2xx _ h, h]

theorem create_resource_409 (oracle : Nat → Nat) (rt rid : String)
    (attrs : List (String × Attr)) (n : Nat) (h : oracle n = 409) :
    create_resource oracle rt rid attrs n =
      (some Exc.resourceAlreadyExists, [Call.createResource rt rid attrs]) := by
  simp [create_resource, h]

theorem create_resource_fatal (oracle : Nat → Nat) (rt rid : String)
    (attrs : List (String × Attr)) (n : Nat) (h409 : oracle n ≠ 409)
    (h : is2xx (oracle n) = false) :
    create_resource oracle rt rid attrs n =
      (some Exc.unexpectedWorkflowError, [Call.createResource rt rid attrs]) := by
  simp [create_resource, h409, h]

theorem create_entity_ok (oracle : Nat → Nat) (rt rid en : String) (n : Nat)
    (h : is2xx (oracle n) = true) :
    create_entity oracle rt rid en n = (none, [Call.createEntity rt rid en]) := by
  simp [create_entity, ne_409_of_is2xx _ h, h]

theorem create_entity_409 (oracle : Nat → Nat) (rt rid en : String) (n : Nat)
    (h : oracle n = 409) :
    create_entity oracle rt rid en n =
      (some Exc.entityAlreadyExists, [Call.createEntity rt rid en]) := by
  simp [create_entity, h]

theorem create_entity_fatal (oracle : Nat → Nat) (rt rid en : String) (n : Nat)
    (h409 : oracle n ≠ 409) (h : is2xx (oracle n) = false) :
    create_entity oracle rt rid en n =
      (some Exc.unexpectedWorkflowError, [Call.createEntity rt rid en]) := by
  simp [create_entity, h409, h]

theorem groupby_const {α : Type} (key : α → String) (k : String) (l : List α) :
    l ≠ [] → (∀ x ∈ l, key x = k) → groupby key l = [(k, l)] := by
  induction l with
  | nil => intro h; exact absurd rfl h
  | cons x xs ih =>
    intro _ hall
    have hx : key x = k := hall x (List.mem_cons_self _ _)
    cases xs with
    | nil => simp [groupby, hx]
    | cons y ys =>
      have h2 : groupby key (y :: ys) = [(k, y :: ys)] :=
        ih (by simp) (fun z hz => hall z (List.mem_cons_of_mem _ hz))
      rw [groupby_cons_run key x (y :: ys) h2 hx]

theorem process_samples_steady_needs (oracle : Nat → Nat) (disp : Dispatcher)
    (ext : Extension) (rid en : String) (samples : List Sample) (n : Nat)
    (h0 : is2xx (oracle n) = true) :
    process_samples oracle disp ext rid en samples true n =
      ((update_resource oracle ext.name rid
          (get_resource_attributes disp ext rid en samples true) (n + 1)).1,
       [Call.postMeasure ext.name rid en
          (samples.map fun s => (s.timestamp, s.counter_volume)),
        Call.updateResource ext.name rid
          (get_resource_attributes disp ext rid en samples true)]) := by
  simp only [process_samples, post_measure_ok oracle ext.name rid en _ n h0, if_true]
  cases hu : update_resource oracle ext.name rid
      (get_resource_attributes disp ext rid en samples true) (n + 1) with
  | mk r c =>
    have hc : c = [Call.updateResource ext.name rid
        (get_resource_attributes disp ext rid en samples true)] := by
      have := congrArg Prod.snd hu
      simpa [update_resource] using this.symm
    subst hc
    simp

theorem process_samples_steady_no_upd (oracle : Nat → Nat) (disp : Dispatcher)
    (ext : Extension) (rid en : String) (samples : List Sample) (n : Nat)
    (h0 : is2xx (oracle n) = true) :
    process_samples oracle disp ext rid en samples false n =
      (none, [Call.postMeasure ext.name rid en
        (samples.map fun s => (s.timestamp, s.counter_volume))]) := by
  simp only [process_samples, post_measure_ok oracle ext.name rid en _ n h0]
  simp

theorem process_samples_post_fatal (oracle : Nat → Nat) (disp : Dispatcher)
    (ext : Extension) (rid en : String) (samples : List Sample) (need : Bool) (n : Nat)
    (h404 : oracle n ≠ 404) (h : is2xx (oracle n) = false) :
    process_samples oracle disp ext rid en samples need n =
      (some Exc.unexpectedWorkflowError,
       [Call.postMeasure ext.name rid en
          (samples.map fun s => (s.timestamp, s.counter_volume))]) := by
  simp only [process_samples, post_measure_fatal oracle ext.name rid en _ n h404 h]

theorem process_samples_resource_created (oracle : Nat → Nat) (disp : Dispatcher)
    (ext : Extension) (rid en : String) (samples : List Sample) (need : Bool) (n : Nat)
    (h0 : oracle n = 404) (h1 : is2xx (oracle (n + 1)) = true) :
    process_samples oracle disp ext rid en samples need n =
      ((post_measure oracle ext.name rid en
          (samples.map fun s => (s.timestamp, s.counter_volume)) (n + 2)).1,
       [Call.postMeasure ext.name rid en
          (samples.map fun s => (s.timestamp, s.counter_volume)),
        Call.createResource ext.name rid
          (get_resource_attributes disp ext rid en samples false),
        Call.postMeasure ext.name rid en
          (samples.map fun s => (s.timestamp, s.counter_volume))]) := by
  simp only [process_samples,
    post_measure_404 oracle ext.name rid en _ n h0,
    create_resource_ok oracle ext.name rid _ (n + 1) h1]
  cases hr : post_measure oracle ext.name rid en
      (samples.map fun s => (s.timestamp, s.counter_volume)) (n + 2) with
  | mk r c3 =>
    have hc3 : c3 = [Call.postMeasure ext.name rid en
        (samples.map fun s => (s.timestamp, s.counter_volume))] := by
      have := congrArg Prod.snd hr
      simpa [post_measure] using this.symm
    subst hc3
    cases r <;> simp

theorem process_samples_create_fatal (oracle : Nat → Nat) (disp : Dispatcher)
    (ext : Extension) (rid en : String) (samples : List Sample) (need : Bool) (n : Nat)
    (h0 : oracle n = 404) (h1a : oracle (n + 1) ≠ 409)
    (h1b : is2xx (oracle (n + 1)) = false) :
    process_samples oracle disp ext rid en samples need n =
      (some Exc.unexpectedWorkflowError,
       [Call.postMeasure ext.name rid en
          (samples.map fun s => (s.timestamp, s.counter_volume)),
        Call.createResource ext.name rid
          (get_resource_attributes disp ext rid en samples false)]) := by
  simp only [process_samples,
    post_measure_404 oracle ext.name rid en _ n h0,
    create_resource_fatal oracle ext.name rid _ (n + 1) h1a h1b]
  simp

theorem process_samples_entity_fatal (oracle : Nat → Nat) (disp : Dispatcher)
    (ext : Extension) (rid en : String) (samples : List Sample) (need : Bool) (n : Nat)
    (h0 : oracle n = 404) (h1 : oracle (n + 1) = 409) (h2a : oracle (n + 2) ≠ 409)
    (h2b : is2xx (oracle (n + 2)) = false) :
    process_samples oracle disp ext rid en samples need n =
      (some Exc.unexpectedWorkflowError,
       [Call.postMeasure ext.name rid en
          (samples.map fun s => (s.timestamp, s.counter_volume)),
        Call.createResource ext.name rid
          (get_resource_attributes disp ext rid en samples false),
        Call.createEntity ext.name rid en]) := by
  simp only [process_samples,
    post_measure_404 oracle ext.name rid en _ n h0,
    create_resource_409 oracle ext.name rid _ (n + 1) h1,
    create_entity_fatal oracle ext.name rid en (n + 2) h2a h2b]
  simp

theorem process_samples_retry_fatal (oracle : Nat → Nat) (disp : Dispatcher)
    (ext : Extension) (rid en : String) (samples : List Sample) (need : Bool) (n : Nat)
    (h0 : oracle n = 404) (h1 : oracle (n + 1) = 409)
    (hce : oracle (n + 2) = 409 ∨ is2xx (oracle (n + 2)) = true)
    (h3 : is2xx (oracle (n + 3)) = false) :
    process_samples oracle disp ext rid en samples need n =
      ((post_measure oracle ext.name rid en
          (samples.map fun s => (s.timestamp, s.counter_volume)) (n + 3)).1,
       [Call.postMeasure ext.name rid en
          (samples.map fun s => (s.timestamp, s.counter_volume)),
        Call.createResource ext.name rid
          (get_resource_attributes disp ext rid en samples false),
        Call.createEntity ext.name rid en,
        Call.postMeasure ext.name rid en
          (samples.map fun s => (s.timestamp, s.counter_volume))]) := by
  by_cases h404 : oracle (n + 3) = 404
  · have hretry := post_measure_404 oracle ext.name rid en
      (samples.map fun s => (s.timestamp, s.counter_volume)) (n + 3) h404
    rcases hce with he | he
    · simp only [process_samples,
        post_measure_404 oracle ext.name rid en _ n h0,
        create_resource_409 oracle ext.name rid _ (n + 1) h1,
        create_entity_409 oracle ext.name rid en (n + 2) he, hretry]
      simp
    · simp only [process_samples,
        post_measure_404 oracle ext.name rid en _ n h0,
        create_resource_409 oracle ext.name rid _ (n + 1) h1,
        create_entity_ok oracle ext.name rid en (n + 2) he, hretry]
      simp
  · have hretry := post_measure_fatal oracle ext.name rid en
      (samples.map fun s => (s.timestamp, s.counter_volume)) (n + 3) h404 h3
    rcases hce with he | he
    · simp only [process_samples,
        post_measure_404 oracle ext.name rid en _ n h0,
        create_resource_409 oracle ext.name rid _ (n + 1) h1,
        create_entity_409 oracle ext.name rid en (n + 2) he, hretry]
      simp
    · simp only [process_samples,
        post_measure_404 oracle ext.name rid en _ n h0,
        create_resource_409 oracle ext.name rid _ (n + 1) h1,
        create_entity_ok oracle ext.name rid en (n + 2) he, hretry]
      simp

theorem process_samples_retry_ok_needs (oracle : Nat → Nat) (disp : Dispatcher)
    (ext : Extension) (rid en : String) (samples : List Sample) (n : Nat)
    (h0 : oracle n = 404) (h1 : oracle (n + 1) = 409)
    (hce : oracle (n + 2) = 409 ∨ is2xx (oracle (n + 2)) = true)
    (h3 : is2xx (oracle (n + 3)) = true) :
    process_samples oracle disp ext rid en samples true n =
      ((update_resource oracle ext.name rid
          (get_resource_attributes disp ext rid en samples true) (n + 4)).1,
       [Call.postMeasure ext.name rid en
          (samples.map fun s => (s.timestamp, s.counter_volume)),
        Call.createResource ext.name rid
          (get_resource_attributes disp ext rid en samples false),
        Call.createEntity ext.name rid en,
        Call.postMeasure ext.name rid en
          (samples.map fun s => (s.timestamp, s.counter_volume)),
        Call.updateResource ext.name rid
          (get_resource_attributes disp ext rid en samples true)]) := by
  have hretry := post_measure_ok oracle ext.name rid en
    (samples.map fun s => (s.timestamp, s.counter_volume)) (n + 3) h3
  cases hu : update_resource oracle ext.name rid
      (get_resource_attributes disp ext rid en samples true) (n + 4) with
  | mk r c =>
    have hc : c = [Call.updateResource ext.name rid
        (get_resource_attributes disp ext rid en samples true)] := by
      have := congrArg Prod.snd hu
      simpa [update_resource] using this.symm
    subst hc
    rcases hce with he | he
    · simp only [process_samples,
        post_measure_404 oracle ext.name rid en _ n h0,
        create_resource_409 oracle ext.name rid _ (n + 1) h1,
        create_entity_409 oracle ext.name rid en (n + 2) he, hretry, hu]
      simp
    · simp only [process_samples,
        post_measure_404 oracle ext.name rid en _ n h0,
        create_resource_409 oracle ext.name rid _ (n + 1) h1,
        create_entity_ok oracle ext.name rid en (n + 2) he, hretry, hu]
      simp

theorem process_samples_retry_ok_no_upd (oracle : Nat → Nat) (disp : Dispatcher)
    (ext : Extension) (rid en : String) (samples : List Sample) (n : Nat)
    (h0 : oracle n = 404) (h1 : oracle (n + 1) = 409)
    (hce : oracle (n + 2) = 409 ∨ is2xx (oracle (n + 2)) = true)
    (h3 : is2xx (oracle (n + 3)) = true) :
    process_samples oracle disp ext rid en samples false n =
      (none,
       [Call.postMeasure ext.name rid en
          (samples.map fun s => (s.timestamp, s.counter_volume)),
        Call.createResource ext.name rid
          (get_resource_attributes disp ext rid en samples false),
        Call.createEntity ext.name rid en,
        Call.postMeasure ext.name rid en
          (samples.map fun s => (s.timestamp, s.counter_volume))]) := by
  have hretry := post_measure_ok oracle ext.name rid en
    (samples.map fun s => (s.timestamp, s.counter_volume)) (n + 3) h3
  rcases hce with he | he
  · simp only [process_samples,
      post_measure_404 oracle ext.name rid en _ n h0,
      create_resource_409 oracle ext.name rid _ (n + 1) h1,
      create_entity_409 oracle ext.name rid en (n + 2) he, hretry]
    simp
  · simp only [process_samples,
      post_measure_404 oracle ext.name rid en _ n h0,
      create_resource_409 oracle ext.name rid _ (n + 1) h1,
      create_entity_ok oracle ext.name rid en (n + 2) he, hretry]
    simp

theorem runExts_no_match (oracle : Nat → Nat) (disp : Dispatcher)
    (rid en : String) (samples : List Sample) (need : Bool) (l : List Extension)
    (h : ∀ ext ∈ l, en ∉ ext.entities_names) (n : Nat) :
    runExts oracle disp rid en samples need l n = (none, []) := by
  induction l generalizing n with
  | nil => rfl
  | cons e rest ih =>
    have he : en ∉ e.entities_names := h e (List.mem_cons_self _ _)
    simp only [runExts, if_neg he]
    exact ih (fun x hx => h x (List.mem_cons_of_mem _ hx)) n

theorem runExts_single_match (oracle : Nat → Nat) (disp : Dispatcher)
    (rid en : String) (samples : List Sample) (need : Bool) (ext : Extension)
    (l : List Extension) (n : Nat)
    (hf : l.filter (fun e => en ∈ e.entities_names) = [ext]) :
    runExts oracle disp rid en samples need l n =
      process_samples_logged oracle disp ext rid en samples need n := by
  induction l generalizing n with
  | nil => simp at hf
  | cons e rest ih =>
    by_cases he : en ∈ e.entities_names
    · rw [List.filter_cons_of_pos (by simpa using he)] at hf
      obtain ⟨he2, hrest⟩ : e = ext ∧
          rest.filter (fun x => en ∈ x.entities_names) = [] := by
        simpa using hf
      subst he2
      have hnone : ∀ x ∈ rest, en ∉ x.entities_names := by
        intro x hx
        simpa using List.filter_eq_nil_iff.mp hrest x hx
      simp only [runExts, if_pos he]
      cases hp : process_samples_logged oracle disp e rid en samples need n with
      | mk r calls =>
        cases r with
        | none =>
          simp [runExts_no_match oracle disp rid en samples need rest hnone]
        | some e2 => simp
    · rw [List.filter_cons_of_neg (by simpa using he)] at hf
      simp only [runExts, if_neg he]
      exact ih n hf

theorem getKey_setKey_self (m : List (String × Attr)) (k : String) (v : Attr) :
    getKey (setKey m k v) k = some v := by
  induction m with
  | nil => simp [setKey, getKey]
  | cons p rest ih =>
    obtain ⟨k', v'⟩ := p
    by_cases h : k' = k
    · simp [setKey, h, getKey]
    · simp [setKey, h, getKey, ih]

theorem getKey_setKey_ne (m : List (String × Attr)) (k k' : String) (v : Attr)
    (h : k' ≠ k) : getKey (setKey m k v) k' = getKey m k' := by
  induction m with
  | nil => simp [setKey, getKey, Ne.symm h]
  | cons p rest ih =>
    obtain ⟨a, b⟩ := p
    by_cases ha : a = k
    · subst ha
      simp [setKey, getKey, Ne.symm h]
    · simp [setKey, ha, getKey, ih]

theorem getKey_foldl_not_mem (pol : Attr) (names : List String)
    (m : List (String × Attr)) (nm : String) (h : nm ∉ names) :
    getKey (names.foldl (fun acc en => setKey acc en pol) m) nm = getKey m nm := by
  induction names generalizing m with
  | nil => rfl
  | cons a rest ih =>
    have hna : nm ≠ a := fun hh => h (hh ▸ List.mem_cons_self _ _)
    have hrest : nm ∉ rest := fun hh => h (List.mem_cons_of_mem _ hh)
    simp only [List.foldl_cons]
    rw [ih (setKey m a pol) hrest]
    exact getKey_setKey_ne m a nm pol hna

theorem getKey_foldl_policy (pol : Attr) (names : List String) :
    ∀ (m : List (String × Attr)) (nm : String), nm ∈ names →
    getKey (names.foldl (fun acc en => setKey acc en pol) m) nm = some pol := by
  induction names with
  | nil => intro m nm h; simp at h
  | cons a rest ih =>
    intro m nm h
    simp only [List.foldl_cons]
    by_cases hr : nm ∈ rest
    · exact ih (setKey m a pol) nm hr
    · have hna : nm = a := by
        rcases List.mem_cons.mp h with h1 | h1
        · exact h1
        · exact absurd h1 hr
      subst hna
      rw [getKey_foldl_not_mem pol rest (setKey m nm pol) nm hr]
      exact getKey_setKey_self m nm pol

theorem flatten_grouped (G : List (String × List Sample)) :
    ((G.flatMap
        (fun p => (groupby (fun s => s.counter_name) p.2).map Prod.snd)).flatten)
      = (G.map Prod.snd).flatten := by
  induction G with
  | nil => rfl
  | cons p rest ih =>
    simp only [List.flatMap_cons, List.flatten_append, List.map_cons,
      List.flatten_cons, ih, groupby_flatten]

/-- Claim C4: when the initial measurement post answers 404, the
create-resource answers 409, the create-entity answers 2xx and the retried
post answers 2xx, the work unit issues exactly the sequence: post,
create-resource, create-entity, retry post, update-resource — the final
update happens because `resource_need_to_be_updated` is still true on this
path. -/
theorem c4_entity_missing_sequence (oracle : Nat → Nat) (disp : Dispatcher)
    (ext : Extension) (rid en : String) (samples : List Sample) (n : Nat)
    (h0 : oracle n = 404) (h1 : oracle (n + 1) = 409)
    (h2 : is2xx (oracle (n + 2)) = true) (h3 : is2xx (oracle (n + 3)) = true) :
    (process_samples oracle disp ext rid en samples true n).2 =
      [Call.postMeasure ext.name rid en
         (samples.map fun s => (s.timestamp, s.counter_volume)),
       Call.createResource ext.name rid
         (get_resource_attributes disp ext rid en samples false),
       Call.createEntity ext.name rid en,
       Call.postMeasure ext.name rid en
         (samples.map fun s => (s.timestamp, s.counter_volume)),
       Call.updateResource ext.name rid
         (get_resource_attributes disp ext rid en samples true)] := by
  rw [process_samples_retry_ok_needs oracle disp ext rid en samples n h0 h1
    (Or.inr h2) h3]

theorem c4_witness :
    (process_samples oracleColdEntity dispCpu extCpu "r1" "cpu" [sampleR1] true 0).2 =
      [Call.postMeasure "instance" "r1" "cpu" [(1, 5)],
       Call.createResource "instance" "r1"
         [("id", Attr.s "r1"), ("user_id", Attr.s "u1"), ("project_id", Attr.s "p1"),
          ("entities", Attr.dict [("cpu", Attr.dict [("archive_policy", Attr.s "low")])])],
       Call.createEntity "instance" "r1" "cpu",
       Call.postMeasure "instance" "r1" "cpu" [(1, 5)],
       Call.updateResource "instance" "r1" []] := by
  rw [c4_entity_missing_sequence oracleColdEntity dispCpu extCpu "r1" "cpu"
    [sampleR1] 0 rfl rfl rfl rfl]
  rfl

/-- Claim C5: when the initial post answers 404, create-resource answers
409 and create-entity also answers 409 (entity created concurrently), the
conflict is treated as success: the unit still issues the retry post as its
fourth call instead of aborting. -/
theorem c5_entity_race_retries (oracle : Nat → Nat) (disp : Dispatcher)
    (ext : Extension) (rid en : String) (samples : List Sample) (need : Bool) (n : Nat)
    (h0 : oracle n = 404) (h1 : oracle (n + 1) = 409) (h2 : oracle (n + 2) = 409) :
    ∃ tail, (process_samples oracle disp ext rid en samples need n).2 =
      [Call.postMeasure ext.name rid en
         (samples.map fun s => (s.timestamp, s.counter_volume)),
       Call.createResource ext.name rid
         (get_resource_attributes disp ext rid en samples false),
       Call.createEntity ext.name rid en,
       Call.postMeasure ext.name rid en
         (samples.map fun s => (s.timestamp, s.counter_volume))] ++ tail := by
  by_cases h3 : is2xx (oracle (n + 3)) = true
  · cases need with
    | true =>
      refine ⟨[Call.updateResource ext.name rid
        (get_resource_attributes disp ext rid en samples true)], ?_⟩
      rw [process_samples_retry_ok_needs oracle disp ext rid en samples n h0 h1
        (Or.inl h2) h3]
      rfl
    | false =>
      refine ⟨[], ?_⟩
      rw [process_samples_retry_ok_no_upd oracle disp ext rid en samples n h0 h1
        (Or.inl h2) h3]
      rfl
  · have h3f : is2xx (oracle (n + 3)) = false := by simpa using h3
    refine ⟨[], ?_⟩
    rw [process_samples_retry_fatal oracle disp ext rid en samples need n h0 h1
      (Or.inl h2) h3f]
    rfl

theorem c5_witness :
    ∃ tail,
      (process_samples oracleEntityRace dispCpu extCpu "r1" "cpu" [sampleR1] true 0).2 =
      [Call.postMeasure "instance" "r1" "cpu" [(1, 5)],
       Call.createResource "instance" "r1"
         (get_resource_attributes dispCpu extCpu "r1" "cpu" [sampleR1] false),
       Call.createEntity "instance" "r1" "cpu",
       Call.postMeasure "instance" "r1" "cpu" [(1, 5)]] ++ tail :=
  c5_entity_race_retries oracleEntityRace dispCpu extCpu "r1" "cpu" [sampleR1]
    true 0 rfl rfl rfl

/-- Claim C6: when the initial post answers 404 and create-resource answers
2xx, the unit issues exactly post, create-resource, retry post — no
create-entity call and no update-resource call, whatever the retry status
and the incoming flag value, because the successful creation clears
`resource_need_to_be_updated` for this unit. -/
theorem c6_resource_missing_sequence (oracle : Nat → Nat) (disp : Dispatcher)
    (ext : Extension) (rid en : String) (samples : List Sample) (need : Bool) (n : Nat)
    (h0 : oracle n = 404) (h1 : is2xx (oracle (n + 1)) = true) :
    (process_samples oracle disp ext rid en samples need n).2 =
      [Call.postMeasure ext.name rid en
         (samples.map fun s => (s.timestamp, s.counter_volume)),
       Call.createResource ext.name rid
         (get_resource_attributes disp ext rid en samples false),
       Call.postMeasure ext.name rid en
         (samples.map fun s => (s.timestamp, s.counter_volume))] := by
  rw [process_samples_resource_created oracle disp ext rid en samples need n h0 h1]

theorem c6_witness :
    (process_samples oracleColdResource dispCpu extCpu "r1" "cpu" [sampleR1] true 0).2 =
      [Call.postMeasure "instance" "r1" "cpu" [(1, 5)],
       Call.createResource "instance" "r1"
         (get_resource_attributes dispCpu extCpu "r1" "cpu" [sampleR1] false),
       Call.postMeasure "instance" "r1" "cpu" [(1, 5)]] :=
  c6_resource_missing_sequence oracleColdResource dispCpu extCpu "r1" "cpu"
    [sampleR1] true 0 rfl rfl

/-- Claim C7: concatenating the samples of all groups produced by the
grouping step, in resource-group order then metric-group order, gives back
exactly the original batch; hence the relative order within every
(resource_id, counter_name) pair is preserved and no sample is dropped or
duplicated. -/
theorem c7_grouping_preserves (data : List Sample) :
    (groupedSamples data).flatten = data ∧
    ∀ rid en,
      ((groupedSamples data).flatten.filter
          (fun s => s.resource_id == rid && s.counter_name == en)) =
        data.filter (fun s => s.resource_id == rid && s.counter_name == en) := by
  have h : (groupedSamples data).flatten = data := by
    rw [groupedSamples, flatten_grouped, groupby_flatten]
  exact ⟨h, fun rid en => by rw [h]⟩

/-- Claim C10: a metric group whose counter name is owned by no registered
plugin is silently skipped: it contributes no HTTP call and no exception,
and the rest of the groups are processed exactly as if it were absent. -/
theorem c10_unowned_metric_skipped (oracle : Nat → Nat) (disp : Dispatcher)
    (rid en : String) (samples : List Sample)
    (rest : List (String × List Sample)) (n : Nat)
    (h : ∀ ext ∈ disp.mgmr, en ∉ ext.entities_names) :
    runEntityGroups oracle disp rid ((en, samples) :: rest) n =
      runEntityGroups oracle disp rid rest n := by
  simp only [runEntityGroups,
    runExts_no_match oracle disp rid en samples true disp.mgmr h n]
  simp

theorem c10_witness :
    runEntityGroups oracleAll200 dispCpu "r1"
        [("mem", [sampleR1]), ("cpu", [sampleR1])] 0 =
      runEntityGroups oracleAll200 dispCpu "r1" [("cpu", [sampleR1])] 0 :=
  c10_unowned_metric_skipped oracleAll200 dispCpu "r1" "mem" [sampleR1]
    [("cpu", [sampleR1])] 0 (by decide)

/-- Claim C1 (counterexample): a steady-state batch — a single sample whose
resource and entity already exist, every HTTP status 200 — still makes the
dispatcher issue an update-resource (PATCH) call after the single
measurement post, so "no create-resource, create-entity, or update-resource
calls" is false on the code: the needs-update flag is never cleared on the
success path. -/
theorem c1_counterexample :
    record_metering_data oracleAll200 dispCpu [sampleR1] 0 =
      (none,
       [Call.postMeasure "instance" "r1" "cpu" [(1, 5)],
        Call.updateResource "instance" "r1" []]) ∧
    (record_metering_data oracleAll200 dispCpu [sampleR1] 0).2.countP
      isUpdateResourceCall = 1 :=
  ⟨rfl, rfl⟩

/-- Claim C1 (amended): for a batch all of whose samples carry one
resource_id and one counter_name, matched by exactly one registered plugin,
with every HTTP status 2xx, `record_metering_data` issues exactly one
measurement post followed by exactly one update-resource call — and no
create-resource or create-entity calls. -/
theorem c1_amended (oracle : Nat → Nat) (disp : Dispatcher) (ext : Extension)
    (rid en : String) (data : List Sample) (n : Nat)
    (hne : data ≠ [])
    (hrid : ∀ s ∈ data, s.resource_id = rid)
    (hen : ∀ s ∈ data, s.counter_name = en)
    (hext : disp.mgmr.filter (fun e => en ∈ e.entities_names) = [ext])
    (h2xx : ∀ m, is2xx (oracle m) = true) :
    record_metering_data oracle disp data n =
      (none,
       [Call.postMeasure ext.name rid en
          (data.map fun s => (s.timestamp, s.counter_volume)),
        Call.updateResource ext.name rid
          (get_resource_attributes disp ext rid en data true)]) := by
  have hgr : groupby (fun s => s.resource_id) data = [(rid, data)] :=
    groupby_const _ rid data hne hrid
  have hge : groupby (fun s => s.counter_name) data = [(en, data)] :=
    groupby_const _ en data hne hen
  have hupd : (update_resource oracle ext.name rid
      (get_resource_attributes disp ext rid en data true) (n + 1)).1 = none := by
    simp [update_resource, h2xx (n + 1)]
  have hproc : process_samples oracle disp ext rid en data true n =
      (none,
       [Call.postMeasure ext.name rid en
          (data.map fun s => (s.timestamp, s.counter_volume)),
        Call.updateResource ext.name rid
          (get_resource_attributes disp ext rid en data true)]) := by
    rw [process_samples_steady_needs oracle disp ext rid en data n (h2xx n), hupd]
  have hlog : process_samples_logged oracle disp ext rid en data true n =
      (none,
       [Call.postMeasure ext.name rid en
          (data.map fun s => (s.timestamp, s.counter_volume)),
        Call.updateResource ext.name rid
          (get_resource_attributes disp ext rid en data true)]) := by
    simp only [process_samples_logged, hproc]
  have hexts := runExts_single_match oracle disp rid en data true ext disp.mgmr n hext
  rw [record_metering_data, hgr]
  simp only [runResourceGroups, hge, runEntityGroups, hexts, hlog]
  simp [runEntityGroups, runResourceGroups]

theorem c1_amended_witness :
    record_metering_data oracleAll200 dispCpu [sampleR1] 0 =
      (none,
       [Call.postMeasure "instance" "r1" "cpu" [(1, 5)],
        Call.updateResource "instance" "r1" []]) :=
  c1_amended oracleAll200 dispCpu extCpu "r1" "cpu" [sampleR1] 0 (by decide)
    (by decide) (by decide) rfl (fun _ => by simp [oracleAll200, is2xx])

/-- Claim C2 (code bug): statuses 404 (initial post), 200 (create
resource), 404 (retried post) make the retried `_post_measure` raise
`NoSuchEntity`, which `log_and_ignore_unexpected_workflow_error` does not
catch: the exception escapes `record_metering_data`, the dispatch of the
batch aborts, and the second sample (resource "r2") is never processed —
no call for "r2" appears in the trace. -/
theorem c2_second_404_escapes :
    record_metering_data oracle404Retry404 dispCpu [sampleR1, sampleR2] 0 =
      (some Exc.noSuchEntity,
       [Call.postMeasure "instance" "r1" "cpu" [(1, 5)],
        Call.createResource "instance" "r1"
          [("id", Attr.s "r1"), ("user_id", Attr.s "u1"),
           ("project_id", Attr.s "p1"),
           ("entities", Attr.dict [("cpu", Attr.dict [("archive_policy", Attr.s "low")])])],
        Call.postMeasure "instance" "r1" "cpu" [(1, 5)]]) ∧
    ∀ c ∈ (record_metering_data oracle404Retry404 dispCpu [sampleR1, sampleR2] 0).2,
      c ≠ Call.postMeasure "instance" "r2" "cpu" [(2, 7)] := by
  have heq : (record_metering_data oracle404Retry404 dispCpu [sampleR1, sampleR2] 0).2 =
      [Call.postMeasure "instance" "r1" "cpu" [(1, 5)],
       Call.createResource "instance" "r1"
         [("id", Attr.s "r1"), ("user_id", Attr.s "u1"),
          ("project_id", Attr.s "p1"),
          ("entities", Attr.dict [("cpu", Attr.dict [("archive_policy", Attr.s "low")])])],
       Call.postMeasure "instance" "r1" "cpu" [(1, 5)]] := rfl
  refine ⟨rfl, ?_⟩
  intro c hc
  rw [heq] at hc
  simp only [List.mem_cons, List.not_mem_nil, or_false] at hc
  rcases hc with rfl | rfl | rfl <;> simp

/-- Claim C3 (counterexample): the grouping is itertools.groupby, which only
groups consecutive runs.  On a batch whose two "r1" samples are separated
by an "r2" sample the code yields three groups, with "r1" appearing as a key
twice — not the first-seen-order gathered grouping the claim describes
(formalised literally as `groupFirstSeen`). -/
theorem c3_counterexample :
    groupby (fun s => s.resource_id) [sampleR1, sampleR2, sampleR1b] =
      [("r1", [sampleR1]), ("r2", [sampleR2]), ("r1", [sampleR1b])] ∧
    groupFirstSeen (fun s => s.resource_id) [sampleR1, sampleR2, sampleR1b] =
      [("r1", [sampleR1, sampleR1b]), ("r2", [sampleR2])] ∧
    groupby (fun s => s.resource_id) [sampleR1, sampleR2, sampleR1b] ≠
      groupFirstSeen (fun s => s.resource_id) [sampleR1, sampleR2, sampleR1b] := by
  refine ⟨rfl, rfl, ?_⟩
  decide

/-- Claim C3 (amended): the grouping partitions the batch, in order, into
maximal runs of consecutive samples with equal keys: concatenating the
groups restores the batch, every group is non-empty and homogeneous in its
key, and adjacent groups carry different keys.  Samples with an equal key
that are not adjacent therefore land in distinct groups. -/
theorem c3_amended {α : Type} (key : α → String) (l : List α) :
    ((groupby key l).map Prod.snd).flatten = l ∧
    (∀ p ∈ groupby key l, p.2 ≠ [] ∧ ∀ x ∈ p.2, key x = p.1) ∧
    List.Chain' (fun p q => p.1 ≠ q.1) (groupby key l) :=
  ⟨groupby_flatten key l, groupby_groups key l, groupby_chain key l⟩

theorem c3_amended_witness :
    ((groupby (fun s => s.resource_id) [sampleR1, sampleR2, sampleR1b]).map
        Prod.snd).flatten = [sampleR1, sampleR2, sampleR1b] ∧
    [sampleR1] ≠ [] :=
  ⟨(c3_amended (fun s => s.resource_id) [sampleR1, sampleR2, sampleR1b]).1,
   ((c3_amended (fun s => s.resource_id) [sampleR1, sampleR2, sampleR1b]).2.1
      ("r1", [sampleR1]) (by decide)).1⟩

/-- Claim C8: for a non-empty group, the create-variant attributes are the
plugin-extracted attributes of the last sample with `id` (= resource_id),
`user_id` and `project_id` taken from that last sample layered on top, plus
an `entities` dictionary binding every owned metric name to the single
configured archive policy; the update-variant attributes are exactly the
plugin-extracted attributes. -/
theorem c8_resource_attributes (disp : Dispatcher) (ext : Extension)
    (rid en : String) (samples : List Sample) (h : samples ≠ []) :
    get_resource_attributes disp ext rid en samples true =
      ext.get_resource_extra_attributes (samples.getLast h) ∧
    getKey (get_resource_attributes disp ext rid en samples false) "id" =
      some (Attr.s rid) ∧
    getKey (get_resource_attributes disp ext rid en samples false) "user_id" =
      some (Attr.s (samples.getLast h).user_id) ∧
    getKey (get_resource_attributes disp ext rid en samples false) "project_id" =
      some (Attr.s (samples.getLast h).project_id) ∧
    (∃ E, getKey (get_resource_attributes disp ext rid en samples false) "entities" =
        some (Attr.dict E) ∧
      ∀ nm ∈ ext.entities_names, getKey E nm = some (gnocchi_archive_policy disp)) ∧
    ∀ k, k ≠ "id" → k ≠ "user_id" → k ≠ "project_id" → k ≠ "entities" →
      getKey (get_resource_attributes disp ext rid en samples false) k =
        getKey (ext.get_resource_extra_attributes (samples.getLast h)) k := by
  have hl : samples.getLastD default = samples.getLast h := by
    rw [List.getLastD_eq_getLast?, List.getLast?_eq_getLast samples h]
    rfl
  simp only [← hl]
  have hdef : get_resource_attributes disp ext rid en samples false =
      setKey (setKey (setKey
          (setKey (ext.get_resource_extra_attributes (samples.getLastD default))
            "id" (Attr.s rid))
          "user_id" (Attr.s (samples.getLastD default).user_id))
          "project_id" (Attr.s (samples.getLastD default).project_id))
        "entities"
        (Attr.dict (ext.entities_names.foldl
          (fun m en => setKey m en (gnocchi_archive_policy disp)) [])) := by
    simp [get_resource_attributes]
  refine ⟨by simp [get_resource_attributes], ?_, ?_, ?_, ?_, ?_⟩
  · rw [hdef, getKey_setKey_ne _ _ _ _ (by decide),
      getKey_setKey_ne _ _ _ _ (by decide),
      getKey_setKey_ne _ _ _ _ (by decide), getKey_setKey_self]
  · rw [hdef, getKey_setKey_ne _ _ _ _ (by decide),
      getKey_setKey_ne _ _ _ _ (by decide), getKey_setKey_self]
  · rw [hdef, getKey_setKey_ne _ _ _ _ (by decide), getKey_setKey_self]
  · refine ⟨ext.entities_names.foldl
      (fun m en => setKey m en (gnocchi_archive_policy disp)) [], ?_, ?_⟩
    · rw [hdef, getKey_setKey_self]
    · intro nm hnm
      exact getKey_foldl_policy (gnocchi_archive_policy disp) ext.entities_names [] nm hnm
  · intro k h1 h2 h3 h4
    rw [hdef, getKey_setKey_ne _ _ _ _ h4, getKey_setKey_ne _ _ _ _ h3,
      getKey_setKey_ne _ _ _ _ h2, getKey_setKey_ne _ _ _ _ h1]

theorem c8_witness :
    get_resource_attributes dispCpu extCpu "r1" "cpu" [sampleR1] true = [] ∧
    getKey (get_resource_attributes dispCpu extCpu "r1" "cpu" [sampleR1] false) "id" =
      some (Attr.s "r1") :=
  ⟨(c8_resource_attributes dispCpu extCpu "r1" "cpu" [sampleR1] (by simp)).1,
   (c8_resource_attributes dispCpu extCpu "r1" "cpu" [sampleR1] (by simp)).2.1⟩

/-- Claim C9: every measurement post a work unit issues — in particular the
retried post of step 4 — carries exactly the measurement records derived
once from the samples ({timestamp, value} per sample, in order), so the
retried payload is identical to the initial one and serialises to the same
bytes. -/
theorem c9_retry_payload (oracle : Nat → Nat) (disp : Dispatcher)
    (ext : Extension) (rid en : String) (samples : List Sample) (need : Bool)
    (n : Nat) (c : Call)
    (hc : c ∈ (process_samples oracle disp ext rid en samples need n).2)
    (rt2 rid2 en2 : String) (body : List (Nat × Int))
    (hpost : c = Call.postMeasure rt2 rid2 en2 body) :
    body = samples.map fun s => (s.timestamp, s.counter_volume) := by
  subst hpost
  by_cases h0 : oracle n = 404
  · by_cases h1 : is2xx (oracle (n + 1)) = true
    · rw [process_samples_resource_created oracle disp ext rid en samples need n
        h0 h1] at hc
      simp at hc
      tauto
    · have h1f : is2xx (oracle (n + 1)) = false := by simpa using h1
      by_cases h1c : oracle (n + 1) = 409
      · by_cases hce : oracle (n + 2) = 409 ∨ is2xx (oracle (n + 2)) = true
        · by_cases h3 : is2xx (oracle (n + 3)) = true
          · cases need with
            | true =>
              rw [process_samples_retry_ok_needs oracle disp ext rid en samples n
                h0 h1c hce h3] at hc
              simp at hc
              tauto
            | false =>
              rw [process_samples_retry_ok_no_upd oracle disp ext rid en samples n
                h0 h1c hce h3] at hc
              simp at hc
              tauto
          · have h3f : is2xx (oracle (n + 3)) = false := by simpa using h3
            rw [process_samples_retry_fatal oracle disp ext rid en samples need n
              h0 h1c hce h3f] at hc
            simp at hc
            tauto
        · obtain ⟨h2a, h2b⟩ := not_or.mp hce
          have h2f : is2xx (oracle (n + 2)) = false := by simpa using h2b
          rw [process_samples_entity_fatal oracle disp ext rid en samples need n
            h0 h1c h2a h2f] at hc
          simp at hc
          tauto
      · rw [process_samples_create_fatal oracle disp ext rid en samples need n
          h0 h1c h1f] at hc
        simp at hc
        tauto
  · by_cases h0b : is2xx (oracle n) = true
    · cases need with
      | true =>
        rw [process_samples_steady_needs oracle disp ext rid en samples n h0b] at hc
        simp at hc
        tauto
      | false =>
        rw [process_samples_steady_no_upd oracle disp ext rid en samples n h0b] at hc
        simp at hc
        tauto
    · have h0f : is2xx (oracle n) = false := by simpa using h0b
      rw [process_samples_post_fatal oracle disp ext rid en samples need n h0 h0f] at hc
      simp at hc
      tauto

theorem c9_witness :
    [((1 : Nat), (5 : Int))] = [sampleR1].map (fun s => (s.timestamp, s.counter_volume)) :=
  c9_retry_payload oracleAll200 dispCpu extCpu "r1" "cpu" [sampleR1] false 0
    (Call.postMeasure "instance" "r1" "cpu" [(1, 5)])
    (by
      show Call.postMeasure "instance" "r1" "cpu" [(1, 5)] ∈
        [Call.postMeasure "instance" "r1" "cpu" [(1, 5)]]
      simp)
    "instance" "r1" "cpu" [(1, 5)] rfl

end Gnocchi
